import Mathlib

/-
Verification of the expression-introspection utilities in src/utils.c
(node classification, call-pattern matching, and formula
construction/deconstruction over R expression trees).

The embedding models the host runtime's SEXP values shallowly:
  * `SEXP.consV lang attribs car cdr` is a pairlist cell (LANGSXP when
    `lang = true`, LISTSXP otherwise); `CAR`/`CDR` of the nil value are
    nil, as for `R_NilValue` in the host runtime, and `CAR` of a symbol
    yields its printname CHARSXP, mirroring the symsxp field layout.
  * attributes are an association list from attribute names to values;
    `Rf_getAttrib`/`Rf_setAttrib` of the host runtime are modelled as
    plain lookup/update on that list (absent attribute reads as nil).
  * logical vector elements are `Option Bool`, with `none` standing for
    the runtime's NA marker; only lengths are kept for the numeric
    vector kinds, whose element values the code under study never reads.
Fallible C functions (those calling `Rf_errorcall`) return
`Except String _` carrying the C error message.
-/

namespace Rlang

/-- The node-type tags (`SEXPTYPE`) the code under study dispatches on. -/
inductive SEXPTYPE where
  | NILSXP | SYMSXP | CHARSXP | LISTSXP | LANGSXP
  | LGLSXP | INTSXP | REALSXP | CPLXSXP | STRSXP | RAWSXP
  | VECSXP | ENVSXP
deriving DecidableEq

/-- Shallow model of a SEXP value. Attribute bags are association lists. -/
inductive SEXP where
  | nilV : SEXP
  | symV (name : String) : SEXP
  | charV (s : String) : SEXP
  | consV (lang : Bool) (attribs : List (String × SEXP)) (car cdr : SEXP) : SEXP
  | lglV (attribs : List (String × SEXP)) (vals : List (Option Bool)) : SEXP
  | intV (attribs : List (String × SEXP)) (len : Nat) : SEXP
  | realV (attribs : List (String × SEXP)) (len : Nat) : SEXP
  | cplxV (attribs : List (String × SEXP)) (len : Nat) : SEXP
  | strV (attribs : List (String × SEXP)) (vals : List String) : SEXP
  | rawV (attribs : List (String × SEXP)) (len : Nat) : SEXP
  | vecV (attribs : List (String × SEXP)) (elems : List SEXP) : SEXP
  | envV (id : Nat) : SEXP

/-- `TYPEOF`. -/
def TYPEOF : SEXP → SEXPTYPE
  | .nilV => .NILSXP
  | .symV _ => .SYMSXP
  | .charV _ => .CHARSXP
  | .consV true _ _ _ => .LANGSXP
  | .consV false _ _ _ => .LISTSXP
  | .lglV _ _ => .LGLSXP
  | .intV _ _ => .INTSXP
  | .realV _ _ => .REALSXP
  | .cplxV _ _ => .CPLXSXP
  | .strV _ _ => .STRSXP
  | .rawV _ _ => .RAWSXP
  | .vecV _ _ => .VECSXP
  | .envV _ => .ENVSXP

/-- `CAR`: first field of a cons cell. `CAR(R_NilValue)` is `R_NilValue`;
on a symbol the car slot aliases the printname CHARSXP. -/
def CAR : SEXP → SEXP
  | .consV _ _ a _ => a
  | .symV n => .charV n
  | _ => .nilV

/-- `CDR`: rest field of a cons cell; `CDR(R_NilValue)` is `R_NilValue`. -/
def CDR : SEXP → SEXP
  | .consV _ _ _ d => d
  | _ => .nilV

def CADR (x : SEXP) : SEXP := CAR (CDR x)

def CADDR (x : SEXP) : SEXP := CAR (CDR (CDR x))

def CDDR (x : SEXP) : SEXP := CDR (CDR x)

def CDAR (x : SEXP) : SEXP := CDR (CAR x)

/-- `Rf_length`: element count for vectors, cell count for pairlists,
0 for nil. -/
def rf_length : SEXP → Nat
  | .nilV => 0
  | .symV _ => 1
  | .charV s => s.length
  | .consV _ _ _ d => 1 + rf_length d
  | .lglV _ vals => vals.length
  | .intV _ n => n
  | .realV _ n => n
  | .cplxV _ n => n
  | .strV _ vals => vals.length
  | .rawV _ n => n
  | .vecV _ elems => elems.length
  | .envV _ => 0

/-- Attribute-bag of a node (empty for nodes that carry none). -/
def ATTRIB : SEXP → List (String × SEXP)
  | .consV _ a _ _ => a
  | .lglV a _ => a
  | .intV a _ => a
  | .realV a _ => a
  | .cplxV a _ => a
  | .strV a _ => a
  | .rawV a _ => a
  | .vecV a _ => a
  | _ => []

/-- Whether the node shape carries an attribute bag at all. -/
def hasAttribSlot : SEXP → Bool
  | .consV _ _ _ _ => true
  | .lglV _ _ => true
  | .intV _ _ => true
  | .realV _ _ => true
  | .cplxV _ _ => true
  | .strV _ _ => true
  | .rawV _ _ => true
  | .vecV _ _ => true
  | _ => false

/-- Lookup in an attribute bag; an absent attribute reads as nil,
as `Rf_getAttrib` returns `R_NilValue`. -/
def lookupAttr : List (String × SEXP) → String → SEXP
  | [], _ => .nilV
  | (k, v) :: rest, n => if k == n then v else lookupAttr rest n

/-- Update an attribute bag, replacing an existing entry in place. -/
def setAttr : List (String × SEXP) → String → SEXP → List (String × SEXP)
  | [], n, v => [(n, v)]
  | (k, w) :: rest, n, v =>
      if k == n then (n, v) :: rest else (k, w) :: setAttr rest n v

/-- Rebuild a node with a replaced attribute bag (identity on shapes
without one). -/
def withAttribs : SEXP → List (String × SEXP) → SEXP
  | .consV l _ a d, attrs => .consV l attrs a d
  | .lglV _ vs, attrs => .lglV attrs vs
  | .intV _ n, attrs => .intV attrs n
  | .realV _ n, attrs => .realV attrs n
  | .cplxV _ n, attrs => .cplxV attrs n
  | .strV _ vs, attrs => .strV attrs vs
  | .rawV _ n, attrs => .rawV attrs n
  | .vecV _ es, attrs => .vecV attrs es
  | x, _ => x

/-- `Rf_getAttrib`. -/
def getAttrib (x : SEXP) (name : String) : SEXP := lookupAttr (ATTRIB x) name

/-- `Rf_setAttrib` (returns the attribute-updated node, as the callers
in utils.c use it). -/
def setAttrib (x : SEXP) (name : String) (v : SEXP) : SEXP :=
  withAttribs x (setAttr (ATTRIB x) name v)

/-- `CHAR` of a CHARSXP. -/
def CHAR : SEXP → String
  | .charV s => s
  | _ => ""

/-- `PRINTNAME` of a symbol: its name as a CHARSXP. -/
def PRINTNAME : SEXP → SEXP
  | .symV n => .charV n
  | _ => .nilV

/-- `STRING_ELT` of a STRSXP (in-range use only in the code under study). -/
def STRING_ELT (x : SEXP) (i : Nat) : SEXP :=
  match x with
  | .strV _ vals => .charV (vals.getD i "")
  | _ => .nilV

/-- utils.c `is_character`. -/
def is_character (x : SEXP) : Bool := TYPEOF x == SEXPTYPE.STRSXP

/-- utils.c `is_str_empty`. -/
def is_str_empty (str : SEXP) : Bool := CHAR str == ""

/-- utils.c `names`: the names attribute. -/
def names (x : SEXP) : SEXP := getAttrib x ("names")

/-- utils.c `has_name_at`. -/
def has_name_at (x : SEXP) (i : Nat) : Bool :=
  let nms := names x
  is_character nms && !is_str_empty (STRING_ELT nms i)

/-- utils.c `set_names`. -/
def set_names (x nms : SEXP) : SEXP := setAttrib x ("names") nms

/-- utils.c `is_null` (pointer comparison with `R_NilValue`). -/
def is_null (x : SEXP) : Bool := TYPEOF x == SEXPTYPE.NILSXP

/-- utils.c `is_sym`: `x` is a symbol whose printname equals `string`. -/
def is_sym (x : SEXP) (string : String) : Bool :=
  if TYPEOF x != SEXPTYPE.SYMSXP then false
  else CHAR (PRINTNAME x) == string

/-- utils.c `is_symbolic`. -/
def is_symbolic (x : SEXP) : Bool :=
  TYPEOF x == SEXPTYPE.LANGSXP || TYPEOF x == SEXPTYPE.SYMSXP

/-- utils.c `is_lang`: symbolic or pairlist node whose CAR is the
symbol `f`. -/
def is_lang (x : SEXP) (f : String) : Bool :=
  if !is_symbolic x && TYPEOF x != SEXPTYPE.LISTSXP then false
  else is_sym (CAR x) f

/-- utils.c `is_prefixed_call`. The function-pointer argument, NULL-able
in C, is an `Option`. -/
def is_prefixed_call (x : SEXP) (sym_predicate : Option (SEXP → Bool)) : Bool :=
  if TYPEOF x != SEXPTYPE.LANGSXP then false
  else
    let head := CAR x
    if !(is_lang head ("$") || is_lang head ("@") ||
         is_lang head ("::") || is_lang head (":::")) then false
    else
      match sym_predicate with
      | none => true
      | some p =>
          let args := CDAR x
          let sym := CADR args
          p sym

/-- utils.c `is_any_call` (its predicate is dereferenced unconditionally,
so it is not optional here). -/
def is_any_call (x : SEXP) (sym_predicate : SEXP → Bool) : Bool :=
  if TYPEOF x != SEXPTYPE.LANGSXP then false
  else sym_predicate (CAR x) || is_prefixed_call x (some sym_predicate)

/-- utils.c `is_rlang_prefixed`. -/
def is_rlang_prefixed (x : SEXP) (sym_predicate : Option (SEXP → Bool)) : Bool :=
  if TYPEOF x != SEXPTYPE.LANGSXP then false
  else if !is_lang (CAR x) ("::") then false
  else
    let args := CDAR x
    let ns_sym := CAR args
    if !is_sym ns_sym ("rlang") then false
    else
      match sym_predicate with
      | some p => p (CADR args)
      | none => true

/-- utils.c `is_rlang_call`. -/
def is_rlang_call (x : SEXP) (sym_predicate : SEXP → Bool) : Bool :=
  if TYPEOF x != SEXPTYPE.LANGSXP then false
  else sym_predicate (CAR x) || is_rlang_prefixed x (some sym_predicate)

/-- The first element of a logical vector (`LOGICAL(x)[0]`), `none`
being NA. -/
def LOGICAL0 : SEXP → Option Bool
  | .lglV _ vals => vals.getD 0 none
  | _ => none

/-- utils.c `is_true`: strict coercion of a length-1 logical to a
boolean; NA coerces to false. -/
def is_true (x : SEXP) : Except String Bool :=
  if TYPEOF x != SEXPTYPE.LGLSXP || rf_length x != 1 then
    Except.error ("`x` must be a boolean")
  else
    match LOGICAL0 x with
    | none => Except.ok false
    | some value => Except.ok value

/-- utils.c `is_formula`: a LANGSXP whose head is the symbol `~` or `:=`. -/
def is_formula (x : SEXP) : Bool :=
  if TYPEOF x != SEXPTYPE.LANGSXP then false
  else
    let head := CAR x
    if TYPEOF head != SEXPTYPE.SYMSXP then false
    else is_sym head ("~") || is_sym head (":=")

/-- utils.c `is_fpromise`: a formula whose CDDR is null. -/
def is_fpromise (x : SEXP) : Bool := is_formula x && is_null (CDDR x)

/-- utils.c `f_rhs_`. -/
def f_rhs_ (f : SEXP) : Except String SEXP :=
  if !is_formula f then Except.error ("`x` is not a formula")
  else
    match rf_length f with
    | 2 => Except.ok (CADR f)
    | 3 => Except.ok (CADDR f)
    | _ => Except.error ("Invalid formula")

/-- utils.c `f_lhs_`. -/
def f_lhs_ (f : SEXP) : Except String SEXP :=
  if !is_formula f then Except.error ("`x` is not a formula")
  else
    match rf_length f with
    | 2 => Except.ok SEXP.nilV
    | 3 => Except.ok (CADR f)
    | _ => Except.error ("Invalid formula")

/-- utils.c `f_env_`: the `.Environment` attribute of a formula. -/
def f_env_ (f : SEXP) : Except String SEXP :=
  if !is_formula f then Except.error ("`x` is not a formula")
  else Except.ok (getAttrib f (".Environment"))

/-- `Rf_lang2`: a two-cell call pairlist. -/
def Rf_lang2 (h a : SEXP) : SEXP :=
  SEXP.consV true [] h (SEXP.consV false [] a SEXP.nilV)

/-- `Rf_mkString`. -/
def mkString (s : String) : SEXP := SEXP.strV [] [s]

/-- utils.c `make_formula1`: builds `~rhs`, tags it with class
`formula` and attaches the scope as the `.Environment` attribute. -/
def make_formula1 (rhs env : SEXP) : SEXP :=
  let f := Rf_lang2 (SEXP.symV ("~")) rhs
  let f := setAttrib f ("class") (mkString ("formula"))
  let f := setAttrib f (".Environment") env
  f

/-- Trailing-argument chain of LISTSXP cells, as the parser builds call
arguments. -/
def argList : List SEXP → SEXP
  | [] => SEXP.nilV
  | a :: rest => SEXP.consV false [] a (argList rest)

/-- A LANGSXP call node with the given head and trailing operands
(test-input builder, the shape `Rf_langN` produces). -/
def mkCall (attrs : List (String × SEXP)) (head : SEXP) (args : List SEXP) : SEXP :=
  SEXP.consV true attrs head (argList args)

/-- The chain length of a parser-built argument list is the number of
operands. -/
theorem rf_length_argList (args : List SEXP) :
    rf_length (argList args) = args.length := by
  induction args with
  | nil => rfl
  | cons a rest ih => simp [argList, rf_length, ih, Nat.add_comm]

/-- A call node has pairlist length one more than its operand count. -/
theorem rf_length_mkCall (attrs : List (String × SEXP)) (head : SEXP)
    (args : List SEXP) :
    rf_length (mkCall attrs head args) = 1 + args.length := by
  simp [mkCall, rf_length, rf_length_argList]

/-- `is_sym` holds exactly on the symbol with the given printname. -/
theorem is_sym_eq_true_iff (y : SEXP) (s : String) :
    is_sym y s = true ↔ y = SEXP.symV s := by
  cases y <;> first
  | (rename_i lang attribs car cdr
     cases lang <;> simp [is_sym, TYPEOF, PRINTNAME, CHAR])
  | simp [is_sym, TYPEOF, PRINTNAME, CHAR]

/-- Whatever `is_sym` accepts is a symbol node. -/
theorem is_sym_typeof (y : SEXP) (s : String) (h : is_sym y s = true) :
    TYPEOF y = SEXPTYPE.SYMSXP := by
  have hy := (is_sym_eq_true_iff y s).mp h
  subst hy
  rfl

/-- Reading back an attribute just written returns the written value. -/
theorem lookupAttr_setAttr (attrs : List (String × SEXP)) (n : String)
    (v : SEXP) : lookupAttr (setAttr attrs n v) n = v := by
  induction attrs with
  | nil => simp [setAttr, lookupAttr]
  | cons kv rest ih =>
      obtain ⟨k, w⟩ := kv
      by_cases hk : (k == n) = true
      · simp [setAttr, lookupAttr, hk]
      · simp [setAttr, lookupAttr, hk, ih]

/-- On a formula, `f_rhs_` dispatches purely on the pairlist length. -/
theorem f_rhs_of_formula (f : SEXP) (hf : is_formula f = true) :
    f_rhs_ f =
      (if rf_length f = 2 then Except.ok (CADR f)
       else if rf_length f = 3 then Except.ok (CADDR f)
       else Except.error ("Invalid formula")) := by
  simp only [f_rhs_, hf, Bool.not_true, Bool.false_eq_true, if_false]
  rcases hn : rf_length f with _ | _ | _ | _ | m <;> simp

/-- On a formula, `f_lhs_` dispatches purely on the pairlist length. -/
theorem f_lhs_of_formula (f : SEXP) (hf : is_formula f = true) :
    f_lhs_ f =
      (if rf_length f = 2 then Except.ok SEXP.nilV
       else if rf_length f = 3 then Except.ok (CADR f)
       else Except.error ("Invalid formula")) := by
  simp only [f_lhs_, hf, Bool.not_true, Bool.false_eq_true, if_false]
  rcases hn : rf_length f with _ | _ | _ | _ | m <;> simp

/-- C1: round-trip through the one-sided formula constructor. For every
expression `e` and scope reference `sc`, the formula built by
`make_formula1` has right-hand side `e`, absent (nil) left-hand side,
attached scope `sc`, and is recognized as one-sided. -/
theorem C1_make_formula1_round_trip (e sc : SEXP) :
    f_rhs_ (make_formula1 e sc) = Except.ok e ∧
    f_lhs_ (make_formula1 e sc) = Except.ok SEXP.nilV ∧
    f_env_ (make_formula1 e sc) = Except.ok sc ∧
    is_fpromise (make_formula1 e sc) = true :=
  ⟨rfl, rfl, rfl, rfl⟩

/-- C2: on a formula node, `f_rhs_` and `f_lhs_` dispatch on the operand
count: one operand gives that operand as rhs and nil as lhs, two operands
give the second as rhs and the first as lhs, and a formula-shaped call
with zero or three-plus operands makes both fail with the malformed
formula error. -/
theorem C2_f_rhs_f_lhs_dispatch (attrs : List (String × SEXP)) (head : SEXP)
    (args : List SEXP) (hf : is_formula (mkCall attrs head args) = true) :
    (∀ a, args = [a] →
        f_rhs_ (mkCall attrs head args) = Except.ok a ∧
        f_lhs_ (mkCall attrs head args) = Except.ok SEXP.nilV) ∧
    (∀ a b, args = [a, b] →
        f_rhs_ (mkCall attrs head args) = Except.ok b ∧
        f_lhs_ (mkCall attrs head args) = Except.ok a) ∧
    ((args = [] ∨ 3 ≤ args.length) →
        f_rhs_ (mkCall attrs head args) = Except.error ("Invalid formula") ∧
        f_lhs_ (mkCall attrs head args) = Except.error ("Invalid formula")) := by
  refine ⟨?_, ?_, ?_⟩
  · rintro a rfl
    rw [f_rhs_of_formula _ hf, f_lhs_of_formula _ hf, rf_length_mkCall]
    simp [mkCall, argList, CADR, CAR, CDR]
  · rintro a b rfl
    rw [f_rhs_of_formula _ hf, f_lhs_of_formula _ hf, rf_length_mkCall]
    simp [mkCall, argList, CADR, CADDR, CAR, CDR]
  · intro hlen
    rw [f_rhs_of_formula _ hf, f_lhs_of_formula _ hf, rf_length_mkCall]
    rcases hlen with rfl | h3
    · simp
    · refine ⟨?_, ?_⟩ <;> rw [if_neg (by omega), if_neg (by omega)]

/-- C2 witness: evaluation at the concrete one-operand formula `~x`. -/
theorem C2_f_rhs_f_lhs_dispatch_witness :
    f_rhs_ (mkCall [] (SEXP.symV ("~")) [SEXP.symV ("x")]) =
      Except.ok (SEXP.symV ("x")) ∧
    f_lhs_ (mkCall [] (SEXP.symV ("~")) [SEXP.symV ("x")]) =
      Except.ok SEXP.nilV :=
  (C2_f_rhs_f_lhs_dispatch [] (SEXP.symV ("~")) [SEXP.symV ("x")]
    (by decide)).1 (SEXP.symV ("x")) rfl

/-- C3 counterexample: the zero-operand formula-shaped call `(~)` is
classified one-sided by `is_fpromise` although it has no trailing
operand, so one-sidedness is not equivalent to having exactly one
trailing operand. -/
theorem C3_exactly_one_operand_counterexample :
    ¬ (is_fpromise (mkCall [] (SEXP.symV ("~")) []) = true ↔
        (is_formula (mkCall [] (SEXP.symV ("~")) []) = true ∧
         rf_length (CDR (mkCall [] (SEXP.symV ("~")) [])) = 1)) := by
  decide

/-- C3 amended: `is_fpromise` is true on a call node iff the node is a
formula and has at most one trailing operand (the CDDR-null check also
accepts the degenerate zero-operand formula shape). -/
theorem C3_one_sided_at_most_one_operand (attrs : List (String × SEXP))
    (head : SEXP) (args : List SEXP) :
    is_fpromise (mkCall attrs head args) = true ↔
      (is_formula (mkCall attrs head args) = true ∧ args.length ≤ 1) := by
  rcases args with _ | ⟨a, _ | ⟨b, rest⟩⟩
  · simp [is_fpromise, mkCall, argList, CDDR, CDR, is_null, TYPEOF]
  · simp [is_fpromise, mkCall, argList, CDDR, CDR, is_null, TYPEOF]
  · simp [is_fpromise, mkCall, argList, CDDR, CDR, is_null, TYPEOF]

/-- C4: qualified-call recognition keys off the second sub-argument of
the qualifying head, not the namespace. For a recognizer accepting
exactly the symbol `b` with `a ≠ b`, a call qualified as `pkg::a` does
not match while the same shape with `b` does. -/
theorem C4_qualified_recognition (r : SEXP → Bool) (a b : String)
    (hr : ∀ y, r y = true ↔ y = SEXP.symV b) (hab : a ≠ b)
    (attrs : List (String × SEXP)) (outer : List SEXP) :
    is_any_call
      (mkCall attrs
        (mkCall [] (SEXP.symV ("::")) [SEXP.symV ("pkg"), SEXP.symV a])
        outer) r = false ∧
    is_any_call
      (mkCall attrs
        (mkCall [] (SEXP.symV ("::")) [SEXP.symV ("pkg"), SEXP.symV b])
        outer) r = true := by
  have hcons : ∀ (l : Bool) (ats : List (String × SEXP)) (c d : SEXP),
      r (SEXP.consV l ats c d) = false := by
    intro l ats c d
    cases hbool : r (SEXP.consV l ats c d)
    · rfl
    · exact absurd ((hr _).mp hbool) (by simp)
  have ha : r (SEXP.symV a) = false := by
    cases hbool : r (SEXP.symV a)
    · rfl
    · exact absurd ((hr _).mp hbool) (by simp [hab])
  have hb : r (SEXP.symV b) = true := (hr _).mpr rfl
  constructor
  · simp [is_any_call, is_prefixed_call, mkCall, argList, is_lang, is_symbolic,
      is_sym, TYPEOF, CAR, CDR, CDAR, CADR, CHAR, PRINTNAME, hcons, ha]
  · simp [is_any_call, is_prefixed_call, mkCall, argList, is_lang, is_symbolic,
      is_sym, TYPEOF, CAR, CDR, CDAR, CADR, CHAR, PRINTNAME, hcons, hb]

/-- C4 witness: evaluated with the recognizer accepting exactly the
symbol `f`, on `pkg::g(...)` and `pkg::f(...)`. -/
theorem C4_qualified_recognition_witness :
    is_any_call
      (mkCall []
        (mkCall [] (SEXP.symV ("::")) [SEXP.symV ("pkg"), SEXP.symV ("g")])
        []) (fun y => is_sym y ("f")) = false ∧
    is_any_call
      (mkCall []
        (mkCall [] (SEXP.symV ("::")) [SEXP.symV ("pkg"), SEXP.symV ("f")])
        []) (fun y => is_sym y ("f")) = true :=
  C4_qualified_recognition (fun y => is_sym y ("f")) ("g") ("f")
    (fun y => is_sym_eq_true_iff y ("f")) (by decide) [] []

/-- C5: the namespaced matcher (namespace fixed to `rlang` in the code)
rejects a qualified call whose prefix is not `::` or whose left operand
is a symbol other than the namespace name, even when the right-hand
symbol satisfies the symbol recognizer; on a call whose head is not
`::`-qualified it returns exactly the recognizer's verdict on the bare
head. -/
theorem C5_namespaced_matching (r : SEXP → Bool)
    (hr : ∀ y, r y = true → TYPEOF y = SEXPTYPE.SYMSXP)
    (pfx lname rname : String) (attrs : List (String × SEXP))
    (outer : List SEXP) (_hrn : r (SEXP.symV rname) = true)
    (bhead : SEXP) (bargs : List SEXP)
    (hb : is_lang bhead ("::") = false) :
    (pfx ≠ "::" →
      is_rlang_call
        (mkCall attrs
          (mkCall [] (SEXP.symV pfx) [SEXP.symV lname, SEXP.symV rname])
          outer) r = false) ∧
    (lname ≠ "rlang" →
      is_rlang_call
        (mkCall attrs
          (mkCall [] (SEXP.symV ("::")) [SEXP.symV lname, SEXP.symV rname])
          outer) r = false) ∧
    is_rlang_call (mkCall attrs bhead bargs) r = r bhead := by
  have hcons : ∀ (l : Bool) (ats : List (String × SEXP)) (c d : SEXP),
      r (SEXP.consV l ats c d) = false := by
    intro l ats c d
    cases hbool : r (SEXP.consV l ats c d)
    · rfl
    · exact absurd (hr _ hbool) (by cases l <;> simp [TYPEOF])
  refine ⟨?_, ?_, ?_⟩
  · intro hpfx
    simp [is_rlang_call, is_rlang_prefixed, mkCall, argList, is_lang,
      is_symbolic, is_sym, TYPEOF, CAR, CDR, CDAR, CADR, CHAR, PRINTNAME,
      hcons, hpfx]
  · intro hl
    simp [is_rlang_call, is_rlang_prefixed, mkCall, argList, is_lang,
      is_symbolic, is_sym, TYPEOF, CAR, CDR, CDAR, CADR, CHAR, PRINTNAME,
      hcons, hl]
  · simp [is_rlang_call, is_rlang_prefixed, mkCall, TYPEOF, CAR, hb]

/-- C5 witness: evaluated with the recognizer accepting exactly the
symbol `foo`, on `pkg$foo(...)`, `pkg::foo(...)` and the bare call
`foo(...)`. -/
theorem C5_namespaced_matching_witness :
    is_rlang_call
      (mkCall []
        (mkCall [] (SEXP.symV ("$")) [SEXP.symV ("pkg"), SEXP.symV ("foo")])
        []) (fun y => is_sym y ("foo")) = false ∧
    is_rlang_call
      (mkCall []
        (mkCall [] (SEXP.symV ("::")) [SEXP.symV ("pkg"), SEXP.symV ("foo")])
        []) (fun y => is_sym y ("foo")) = false ∧
    is_rlang_call (mkCall [] (SEXP.symV ("foo")) [])
      (fun y => is_sym y ("foo")) = is_sym (SEXP.symV ("foo")) ("foo") := by
  have h := C5_namespaced_matching (fun y => is_sym y ("foo"))
    (fun y hy => is_sym_typeof y ("foo") hy) ("$") ("pkg") ("foo") [] []
    (by decide) (SEXP.symV ("foo")) [] (by decide)
  exact ⟨h.1 (by decide), h.2.1 (by decide), h.2.2⟩

/-- C6: strict boolean coercion. `is_true` fails with the type error for
every input that is not a length-1 logical (in particular any real
vector), returns false on the length-1 logical holding the NA marker,
and otherwise returns the stored value. -/
theorem C6_strict_bool_coercion (x : SEXP) :
    (TYPEOF x ≠ SEXPTYPE.LGLSXP ∨ rf_length x ≠ 1 →
        is_true x = Except.error ("`x` must be a boolean")) ∧
    (∀ attrs, x = SEXP.lglV attrs [none] → is_true x = Except.ok false) ∧
    (∀ attrs b, x = SEXP.lglV attrs [some b] → is_true x = Except.ok b) := by
  refine ⟨?_, ?_, ?_⟩
  · intro h
    rcases h with h | h <;> simp [is_true, h]
  · rintro attrs rfl
    rfl
  · rintro attrs b rfl
    rfl

/-- C6 witness: a length-1 real vector is rejected, the NA logical
coerces to false, and a stored true is returned. -/
theorem C6_strict_bool_coercion_witness :
    is_true (SEXP.realV [] 1) = Except.error ("`x` must be a boolean") ∧
    is_true (SEXP.lglV [] [none]) = Except.ok false ∧
    is_true (SEXP.lglV [] [some true]) = Except.ok true :=
  ⟨(C6_strict_bool_coercion (SEXP.realV [] 1)).1 (Or.inl (by decide)),
   (C6_strict_bool_coercion (SEXP.lglV [] [none])).2.1 [] rfl,
   (C6_strict_bool_coercion (SEXP.lglV [] [some true])).2.2 [] true rfl⟩

/-- C7: the call matchers are total boolean queries; on any node that is
not call-shaped (neither a LANGSXP call nor a LISTSXP pairlist, the two
shapes the data model's Call covers) every matcher returns false rather
than erroring (in this embedding their return type is Bool, with no
error outcome at all). -/
theorem C7_matchers_false_on_non_call (x : SEXP)
    (hx : TYPEOF x ≠ SEXPTYPE.LANGSXP ∧ TYPEOF x ≠ SEXPTYPE.LISTSXP)
    (f : String) (p : Option (SEXP → Bool)) (r : SEXP → Bool) :
    is_lang x f = false ∧ is_prefixed_call x p = false ∧
    is_any_call x r = false ∧ is_rlang_prefixed x p = false ∧
    is_rlang_call x r = false := by
  obtain ⟨h1, h2⟩ := hx
  cases x <;> first
  | (rename_i lang attribs car cdr
     cases lang
     · exact absurd rfl h2
     · exact absurd rfl h1)
  | simp [is_lang, is_prefixed_call, is_any_call, is_rlang_prefixed,
      is_rlang_call, is_symbolic, is_sym, TYPEOF, CAR, CHAR, PRINTNAME]

/-- C7 witness: evaluated at the nil node. -/
theorem C7_matchers_false_on_non_call_witness :
    is_lang SEXP.nilV ("f") = false ∧
    is_prefixed_call SEXP.nilV none = false ∧
    is_any_call SEXP.nilV (fun _ => true) = false ∧
    is_rlang_prefixed SEXP.nilV none = false ∧
    is_rlang_call SEXP.nilV (fun _ => true) = false :=
  C7_matchers_false_on_non_call SEXP.nilV ⟨by decide, by decide⟩ ("f")
    none (fun _ => true)

/-- C8: `has_name_at` is false at every index when the names attribute
is absent; when the names mapping is present as a string sequence and
the index is in range, it is true exactly when the entry there is a
non-empty string. -/
theorem C8_has_name_at (x : SEXP) (i : Nat) :
    (names x = SEXP.nilV → has_name_at x i = false) ∧
    (∀ attrs nms, names x = SEXP.strV attrs nms → i < nms.length →
        (has_name_at x i = true ↔ nms.getD i "" ≠ "")) := by
  constructor
  · intro h
    simp [has_name_at, h, is_character, TYPEOF]
  · intro attrs nms h _
    simp [has_name_at, h, is_character, is_str_empty, STRING_ELT, TYPEOF, CHAR]

/-- C8 witness: a nameless logical vector has no name at index 0; with
names `["a", ""]` attached, index 0 is named and index 1 is not. -/
theorem C8_has_name_at_witness :
    has_name_at (SEXP.lglV [] [some true]) 0 = false ∧
    has_name_at
      (SEXP.intV [(("names"), SEXP.strV [] [("a"), ("")])] 2) 0 = true ∧
    has_name_at
      (SEXP.intV [(("names"), SEXP.strV [] [("a"), ("")])] 2) 1 = false := by
  have h1 := (C8_has_name_at (SEXP.lglV [] [some true]) 0).1 rfl
  have h2 := ((C8_has_name_at
      (SEXP.intV [(("names"), SEXP.strV [] [("a"), ("")])] 2) 0).2
      [] [("a"), ("")] rfl (by decide)).mpr (by decide)
  have h3 := (C8_has_name_at
      (SEXP.intV [(("names"), SEXP.strV [] [("a"), ("")])] 2) 1).2
      [] [("a"), ("")] rfl (by decide)
  refine ⟨h1, h2, ?_⟩
  cases hbool : has_name_at
      (SEXP.intV [(("names"), SEXP.strV [] [("a"), ("")])] 2) 1
  · rfl
  · exact absurd (h3.mp hbool) (by decide)

/-- C9: names-mapping round-trip. For any node that carries an
attribute bag (the Call, Atomic and List containers of the data model;
the host runtime refuses attributes on the other shapes) and any name
sequence of matching length, reading the names back after `set_names`
returns exactly the sequence passed in. -/
theorem C9_set_names_round_trip (x nms : SEXP)
    (_hlen : rf_length nms = rf_length x) (hslot : hasAttribSlot x = true) :
    names (set_names x nms) = nms := by
  cases x <;> simp [hasAttribSlot] at hslot <;>
    simp [names, set_names, setAttrib, getAttrib, withAttribs, ATTRIB,
      lookupAttr_setAttr]

/-- C9 witness: round-trip of the names `["a"]` on a length-1 logical
vector. -/
theorem C9_set_names_round_trip_witness :
    names (set_names (SEXP.lglV [] [some true]) (mkString ("a"))) =
      mkString ("a") :=
  C9_set_names_round_trip (SEXP.lglV [] [some true]) (mkString ("a"))
    (by decide) (by decide)

/-- C10: when the qualifying head of a prefixed call carries fewer than
two sub-arguments, taking its second sub-argument walks through the nil
value (CAR/CDR of nil are nil), the recognizer is applied to nil, and
its verdict is returned - no out-of-range access and no error. -/
theorem C10_short_qualifier_applies_to_nil (r : SEXP → Bool)
    (attrs attrs2 : List (String × SEXP)) (pfx : String)
    (hpfx : pfx = "$" ∨ pfx = "@" ∨ pfx = "::" ∨ pfx = ":::")
    (args : List SEXP) (hargs : args.length < 2) (outer : List SEXP) :
    is_prefixed_call (mkCall attrs (mkCall attrs2 (SEXP.symV pfx) args) outer)
      (some r) = r SEXP.nilV := by
  rcases args with _ | ⟨a, _ | ⟨b, rest⟩⟩
  · rcases hpfx with rfl | rfl | rfl | rfl <;>
      simp [is_prefixed_call, mkCall, argList, is_lang, is_symbolic, is_sym,
        TYPEOF, CAR, CDR, CDAR, CADR, CHAR, PRINTNAME]
  · rcases hpfx with rfl | rfl | rfl | rfl <;>
      simp [is_prefixed_call, mkCall, argList, is_lang, is_symbolic, is_sym,
        TYPEOF, CAR, CDR, CDAR, CADR, CHAR, PRINTNAME]
  · simp at hargs
    omega

/-- C10 witness: a call whose head is a bare `$` qualifier with no
sub-arguments, with a recognizer that answers true on nil. -/
theorem C10_short_qualifier_applies_to_nil_witness :
    is_prefixed_call (mkCall [] (mkCall [] (SEXP.symV ("$")) []) [])
      (some (fun y => is_null y)) = is_null SEXP.nilV :=
  C10_short_qualifier_applies_to_nil (fun y => is_null y) [] [] ("$")
    (Or.inl rfl) [] (by decide) []

end Rlang

